import Mathlib

/-!
Shallow embedding of `src/bangladesh_road_map.py` (class `BangladeshRoadMap`):
the disk-backed cache layer, the three artifact producers (road network,
district boundaries, connectivity statistics), the report generation, the
road-style lookup of the map renderer, cache clearing, and the complete
pipeline `run_complete_analysis`.

Modelling conventions:
* A road network (`networkx.MultiDiGraph` built by osmnx) is a node list plus
  an edge list; each edge carries its optional `highway` classification tag.
* The filesystem cache is a function from path to optional blob; a blob is a
  pickled payload of one of the three artifact kinds, or an undecodable
  payload (`corrupt`), on which `pickle.load` raises.
* External collaborators (osmnx download/geocoding, the two centrality
  routines of networkx) are inputs of the producers, packaged in `Env`;
  `none` models the collaborator raising an exception.  `nx.is_connected`
  raises `NetworkXPointlessConcept` on the null graph, which the producer
  does not catch; this is the `raised` outcome below.
* Console printing is modelled as returned text; filesystem writes are
  explicit state passing.
-/

namespace BDRoad

/-- An OSM `highway` tag value as it appears on an edge attribute: either a
single string or a list of strings (multi-tagged segment). -/
inductive HighwayTag where
  | str (s : String)
  | tags (l : List String)
deriving DecidableEq, Repr

/-- A road segment: endpoints plus the optional `highway` classification
attribute (other attributes - length, name - do not affect the modelled
behaviour). -/
structure Edge where
  src : Nat
  dst : Nat
  highway : Option HighwayTag
deriving DecidableEq, Repr

/-- A road network graph: `networkx` node list (ordered, as iterated by
`list(G.nodes)`) and edge list. -/
structure RoadGraph where
  nodes : List Nat
  edges : List Edge
deriving DecidableEq, Repr

/-- District boundaries (a GeoDataFrame); opaque payload, only identity
matters for the cache layer. -/
structure Districts where
  id : Nat
deriving DecidableEq, Repr

/-- `G.to_undirected()`: same node list, edges with endpoints normalised
(direction dropped) and duplicates merged. -/
def to_undirected (g : RoadGraph) : RoadGraph :=
  { nodes := g.nodes
    edges := (g.edges.map fun e =>
      { src := min e.src e.dst, dst := max e.src e.dst, highway := e.highway }).dedup }

/-- `G.subgraph(ns)`: the subgraph induced by the nodes of `ns` (edges with
both endpoints in `ns`). -/
def subgraph (g : RoadGraph) (ns : List Nat) : RoadGraph :=
  { nodes := ns
    edges := g.edges.filter fun e => ns.contains e.src && ns.contains e.dst }

/-- One union step of the component computation: merge the components
containing `u` and `v` (no-op when already together or an endpoint is
unknown). -/
def mergeComponents (comps : List (List Nat)) (u v : Nat) : List (List Nat) :=
  match comps.find? (fun c => c.contains u), comps.find? (fun c => c.contains v) with
  | some cu, some cv =>
      if cu = cv then comps
      else (cu ++ cv) :: comps.filter (fun c => c ≠ cu && c ≠ cv)
  | _, _ => comps

/-- The connected components of a graph, treating every edge as undirected:
start from singleton components and merge across each edge. -/
def componentsOf (g : RoadGraph) : List (List Nat) :=
  g.edges.foldl (fun comps e => mergeComponents comps e.src e.dst)
    (g.nodes.dedup.map fun n => [n])

/-- `nx.number_connected_components`. -/
def nx_number_connected_components (g : RoadGraph) : Nat :=
  (componentsOf g).length

/-- `nx.is_connected`: true iff the graph has exactly one connected
component; raises `NetworkXPointlessConcept` (modelled as `none`) on the
null graph. -/
def nx_is_connected (g : RoadGraph) : Option Bool :=
  if g.nodes.isEmpty then none
  else some (nx_number_connected_components g == 1)

/-- The connectivity-statistics mapping built by `analyze_connectivity`.
The two centrality averages and the timestamp are optional keys of the
Python dict; the other four keys are always present. -/
structure Stats where
  total_nodes : Nat
  total_edges : Nat
  is_connected : Bool
  number_of_components : Nat
  analysis_date : Option String
  avg_degree_centrality : Option ℚ
  avg_betweenness_centrality : Option ℚ
deriving DecidableEq, Repr

/-- A cached payload on disk: a pickle of one of the three artifact kinds,
or bytes that fail to decode. -/
inductive Blob where
  | graphBlob (g : RoadGraph)
  | districtsBlob (d : Districts)
  | statsBlob (s : Stats)
  | corrupt
deriving DecidableEq, Repr

/-- The filesystem the cache layer sees: path ↦ file contents (`none` =
absent).  `os.path.exists` is `isSome`, `os.remove` sets the entry to
`none`. -/
def FS : Type := String → Option Blob

/-- Write a blob at a path. -/
def FS.write (fs : FS) (p : String) (b : Blob) : FS :=
  fun q => if q = p then some b else fs q

/-- Remove the file at a path (`os.remove`). -/
def FS.remove (fs : FS) (p : String) : FS :=
  fun q => if q = p then none else fs q

/-- `self.graph_cache_file`. -/
def graph_cache_file : String := "data_cache/bangladesh_road_graph.pkl"

/-- `self.districts_cache_file`. -/
def districts_cache_file : String := "data_cache/bangladesh_districts.pkl"

/-- `self.stats_cache_file`. -/
def stats_cache_file : String := "data_cache/connectivity_stats.pkl"

/-- `self.major_cities`. -/
def major_cities : List String :=
  ["Dhaka", "Chittagong", "Sylhet", "Rajshahi",
   "Khulna", "Barisal", "Rangpur", "Mymensingh"]

/-- Unpickling a road-graph cache file: succeeds exactly when the payload is
a pickled graph (a payload of the wrong shape makes the subsequent attribute
accesses raise, which `load_cached_graph` catches like a decode failure). -/
def decodeGraph : Blob → Option RoadGraph
  | .graphBlob g => some g
  | _ => none

/-- Unpickling a districts cache file. -/
def decodeDistricts : Blob → Option Districts
  | .districtsBlob d => some d
  | _ => none

/-- Unpickling a stats cache file. -/
def decodeStats : Blob → Option Stats
  | .statsBlob s => some s
  | _ => none

/-- The mutable attributes of the `BangladeshRoadMap` object that the
producers read and write. -/
structure AnalyzerState where
  road_graph : Option RoadGraph
  districts_gdf : Option Districts

/-- The fresh object built by `BangladeshRoadMap.__init__`. -/
def initState : AnalyzerState := { road_graph := none, districts_gdf := none }

/-- The external collaborators of one run, as the producers see them:
`none` / a `none`-returning field models the collaborator raising.
`saveOk` fields model whether opening the cache file for writing succeeds
(permissions, disk full). -/
structure Env where
  providerGraph : Option RoadGraph
  providerDistricts : Option Districts
  geocode : String → Option (Int × Int)
  degreeCentrality : RoadGraph → Option (List ℚ)
  betweennessCentrality : RoadGraph → Option (List ℚ)
  now : String
  saveGraphOk : Bool
  saveDistrictsOk : Bool
  saveStatsOk : Bool

/-- `load_cached_graph`: if the cache file exists try to unpickle it; on
success store the graph on the object and return `True`; on decode failure
(or a missing file) return `False`. -/
def load_cached_graph (st : AnalyzerState) (fs : FS) : Bool × AnalyzerState :=
  match fs graph_cache_file with
  | some b =>
      match decodeGraph b with
      | some g => (true, { st with road_graph := some g })
      | none => (false, st)
  | none => (false, st)

/-- `save_graph_to_cache`: best-effort write of the in-memory graph; a
filesystem error is caught and logged, leaving the filesystem as the failed
write left it (modelled as unchanged). -/
def save_graph_to_cache (env : Env) (st : AnalyzerState) (fs : FS) : FS :=
  match st.road_graph with
  | some g => if env.saveGraphOk then fs.write graph_cache_file (.graphBlob g) else fs
  | none => if env.saveGraphOk then fs.write graph_cache_file .corrupt else fs

/-- Result of one producer call: the Python return value, the updated object
state and filesystem, and whether the external provider was invoked. -/
structure StepResult where
  ok : Bool
  st : AnalyzerState
  fs : FS
  providerInvoked : Bool

/-- `download_road_network`: cache-first fetch of the road graph.  The
`network_type` argument only parameterises the provider call and is folded
into `env.providerGraph`. -/
def download_road_network (env : Env) (st : AnalyzerState) (fs : FS)
    (force_download : Bool) : StepResult :=
  if ¬ force_download ∧ (load_cached_graph st fs).1 then
    { ok := true, st := (load_cached_graph st fs).2, fs := fs, providerInvoked := false }
  else
    match env.providerGraph with
    | some g =>
        let st' := { st with road_graph := some g }
        { ok := true, st := st', fs := save_graph_to_cache env st' fs,
          providerInvoked := true }
    | none => { ok := false, st := st, fs := fs, providerInvoked := true }

/-- `load_cached_districts`. -/
def load_cached_districts (st : AnalyzerState) (fs : FS) : Bool × AnalyzerState :=
  match fs districts_cache_file with
  | some b =>
      match decodeDistricts b with
      | some d => (true, { st with districts_gdf := some d })
      | none => (false, st)
  | none => (false, st)

/-- `save_districts_to_cache`. -/
def save_districts_to_cache (env : Env) (st : AnalyzerState) (fs : FS) : FS :=
  match st.districts_gdf with
  | some d =>
      if env.saveDistrictsOk then fs.write districts_cache_file (.districtsBlob d) else fs
  | none => if env.saveDistrictsOk then fs.write districts_cache_file .corrupt else fs

/-- `download_districts`. -/
def download_districts (env : Env) (st : AnalyzerState) (fs : FS)
    (force_download : Bool) : StepResult :=
  if ¬ force_download ∧ (load_cached_districts st fs).1 then
    { ok := true, st := (load_cached_districts st fs).2, fs := fs, providerInvoked := false }
  else
    match env.providerDistricts with
    | some d =>
        let st' := { st with districts_gdf := some d }
        { ok := true, st := st', fs := save_districts_to_cache env st' fs,
          providerInvoked := true }
    | none => { ok := false, st := st, fs := fs, providerInvoked := true }

/-- `load_cached_stats`: returns the cached stats, or `None` on a missing
file or a decode failure (both fall through to recomputation). -/
def load_cached_stats (fs : FS) : Option Stats :=
  match fs stats_cache_file with
  | some b => decodeStats b
  | none => none

/-- `save_stats_to_cache`: best-effort write; errors logged only. -/
def save_stats_to_cache (env : Env) (s : Stats) (fs : FS) : FS :=
  if env.saveStatsOk then fs.write stats_cache_file (.statsBlob s) else fs

/-- `np.mean(list(d.values()))` over the centrality values. -/
def listMean (l : List ℚ) : ℚ := l.sum / (l.length : ℚ)

/-- The graph the betweenness-centrality call receives: the subgraph induced
by the first 1000 nodes in iteration order when the undirected graph exceeds
5000 nodes, the whole undirected graph otherwise. -/
def betweennessInput (gU : RoadGraph) : RoadGraph :=
  if 5000 < gU.nodes.length then subgraph gU (gU.nodes.take 1000) else gU

/-- What `analyze_connectivity` does: return `None` (no graph in memory),
raise an uncaught exception (null graph reaching `nx.is_connected`), or
return a stats mapping. -/
inductive AnalyzeOutcome where
  | noGraph
  | raised
  | ok (s : Stats)
deriving DecidableEq, Repr

/-- Result of the fresh in-process computation of `analyze_connectivity`:
outcome, updated filesystem, and the graph the betweenness-centrality
routine was invoked on (`none` when it never ran). -/
structure ComputeResult where
  outcome : AnalyzeOutcome
  fs : FS
  betweennessCalledOn : Option RoadGraph

/-- The fresh computation of `analyze_connectivity` (lines 210-248): the
stats dict (with `nx.is_connected` raising on a null graph), then the
centrality `try` block whose failure leaves the mapping without either
centrality key, then the best-effort save. -/
def computeStats (env : Env) (g : RoadGraph) (fs : FS) : ComputeResult :=
  let gU := to_undirected g
  match nx_is_connected gU with
  | none => { outcome := .raised, fs := fs, betweennessCalledOn := none }
  | some conn =>
      let base : Stats :=
        { total_nodes := g.nodes.length
          total_edges := g.edges.length
          is_connected := conn
          number_of_components := nx_number_connected_components gU
          analysis_date := some env.now
          avg_degree_centrality := none
          avg_betweenness_centrality := none }
      match env.degreeCentrality gU with
      | none =>
          { outcome := .ok base, fs := save_stats_to_cache env base fs,
            betweennessCalledOn := none }
      | some degs =>
          let bIn := betweennessInput gU
          match env.betweennessCentrality bIn with
          | none =>
              { outcome := .ok base, fs := save_stats_to_cache env base fs,
                betweennessCalledOn := some bIn }
          | some bets =>
              let s : Stats :=
                { base with
                  avg_degree_centrality := some (listMean degs)
                  avg_betweenness_centrality := some (listMean bets) }
              { outcome := .ok s, fs := save_stats_to_cache env s fs,
                betweennessCalledOn := some bIn }

/-- Result of `analyze_connectivity`: outcome, updated filesystem, whether
`load_cached_stats` was invoked, and the graph the betweenness-centrality
routine was invoked on. -/
structure AnalyzeResult where
  outcome : AnalyzeOutcome
  fs : FS
  cacheLoadCalled : Bool
  betweennessCalledOn : Option RoadGraph

/-- `analyze_connectivity`: graph precondition first, then (unless forced)
the cache, then the fresh computation; a cache decode failure and a missing
cache file fall through to the same computation. -/
def analyze_connectivity (env : Env) (st : AnalyzerState) (fs : FS)
    (force_analysis : Bool) : AnalyzeResult :=
  match st.road_graph with
  | none => { outcome := .noGraph, fs := fs, cacheLoadCalled := false,
              betweennessCalledOn := none }
  | some g =>
      match if force_analysis then none else load_cached_stats fs with
      | some s =>
          { outcome := .ok s, fs := fs, cacheLoadCalled := true,
            betweennessCalledOn := none }
      | none =>
          let r := computeStats env g fs
          { outcome := r.outcome, fs := r.fs, cacheLoadCalled := !force_analysis,
            betweennessCalledOn := r.betweennessCalledOn }

/-- Decimal rendering of a rational (stands in for Python float
formatting). -/
def ratStr (q : ℚ) : String := toString q.num ++ "/" ++ toString q.den

/-- The horizontal rule line of the report (Python `"=" * 50`). -/
def reportRule : String := String.mk (List.replicate 50 '=')

/-- The text block printed by `generate_report` for a given stats mapping:
fixed field order, connectivity rendered Yes/No, the centrality averages and
the timestamp only when their key is present. -/
def formatReport (s : Stats) : List String :=
  ["",
   reportRule,
   "BANGLADESH ROAD CONNECTIVITY REPORT",
   reportRule,
   "Total Road Nodes: " ++ toString s.total_nodes,
   "Total Road Segments: " ++ toString s.total_edges,
   "Network Connected: " ++ (if s.is_connected then "Yes" else "No"),
   "Number of Components: " ++ toString s.number_of_components]
  ++ (match s.avg_degree_centrality with
      | some q => ["Average Degree Centrality: " ++ ratStr q]
      | none => [])
  ++ (match s.avg_betweenness_centrality with
      | some q => ["Average Betweenness Centrality: " ++ ratStr q]
      | none => [])
  ++ (match s.analysis_date with
      | some d => ["Analysis Date: " ++ d]
      | none => [])
  ++ [reportRule]

/-- What `generate_report` does: return silently (stats `None`), let an
exception propagate, or print the report block. -/
inductive ReportOutcome where
  | noStats
  | raised
  | printed (lines : List String)
deriving DecidableEq, Repr

/-- Result of `generate_report`: outcome plus the filesystem as left by the
`analyze_connectivity` call it performs. -/
structure ReportResult where
  outcome : ReportOutcome
  fs : FS

/-- `generate_report`: obtains the stats via `analyze_connectivity` (with
its cache reads and writes) and prints the block itself; it returns
nothing. -/
def generate_report (env : Env) (st : AnalyzerState) (fs : FS)
    (force_analysis : Bool) : ReportResult :=
  let r := analyze_connectivity env st fs force_analysis
  match r.outcome with
  | .noGraph => { outcome := .noStats, fs := r.fs }
  | .raised => { outcome := .raised, fs := r.fs }
  | .ok s => { outcome := .printed (formatReport s), fs := r.fs }

/-- A folium line style: colour, stroke weight, opacity. -/
structure RoadStyle where
  color : String
  weight : ℚ
  opacity : ℚ
deriving DecidableEq, Repr

/-- The `styles` dict of `get_road_style`, as the lookup it is used for:
recognised classification ↦ its fixed style, everything else ↦ the
`default` entry. -/
def styleLookup (key : String) : RoadStyle :=
  if key = "motorway" then { color := "#FF0000", weight := 4, opacity := 8/10 }
  else if key = "trunk" then { color := "#FF4500", weight := 3, opacity := 8/10 }
  else if key = "primary" then { color := "#FFA500", weight := 5/2, opacity := 7/10 }
  else if key = "secondary" then { color := "#FFFF00", weight := 2, opacity := 6/10 }
  else if key = "tertiary" then { color := "#90EE90", weight := 3/2, opacity := 5/10 }
  else if key = "residential" then { color := "#87CEEB", weight := 1, opacity := 4/10 }
  else { color := "#808080", weight := 1, opacity := 3/10 }

/-- The value `get_road_style` receives: a string or a list (the edge rows
carry either). -/
inductive TagValue where
  | str (s : String)
  | list (l : List String)
deriving DecidableEq, Repr

/-- `get_road_style`: a list is replaced by its first element (or
`'default'` when empty) before the dict lookup with `'default'`
fallback. -/
def get_road_style (t : TagValue) : RoadStyle :=
  styleLookup
    (match t with
     | .str s => s
     | .list [] => "default"
     | .list (s :: _) => s)

/-- The `highway_type` the renderer computes for an edge row:
`row.get('highway', 'default')`, then first element of a list (or
`'default'` when the list is empty). -/
def edgeTagValue (e : Edge) : TagValue :=
  match e.highway with
  | none => .str "default"
  | some (.str s) => .str s
  | some (.tags l) => .list l

/-- The style the renderer applies to an edge row (lines 302-310). -/
def styleForEdge (e : Edge) : RoadStyle := get_road_style (edgeTagValue e)

/-- One iteration of the `clear_cache` loop: remove the file when it
exists, otherwise do nothing. -/
def removeIfExists (fs : FS) (p : String) : FS :=
  if (fs p).isSome then fs.remove p else fs

/-- `clear_cache`: for each of the three cache files, remove it when it
exists (a removal error would be caught and logged; a missing file is
skipped without any failure).  No other path is touched. -/
def clear_cache (fs : FS) : FS :=
  [graph_cache_file, districts_cache_file, stats_cache_file].foldl removeIfExists fs

/-- Result of `create_interactive_map`: whether a map document was produced,
and the cities for which a marker was added (geocoding failures are skipped
with a warning). -/
structure MapResult where
  produced : Bool
  cityMarkers : List String

/-- `create_interactive_map`: requires an in-memory graph; adds one styled
element per edge, one marker per successfully geocoded city, and writes the
document (rendering internals are external collaborators). -/
def create_interactive_map (env : Env) (st : AnalyzerState) : MapResult :=
  match st.road_graph with
  | none => { produced := false, cityMarkers := [] }
  | some _ =>
      { produced := true
        cityMarkers := major_cities.filter fun c => (env.geocode c).isSome }

/-- Result of `run_complete_analysis`: whether the run aborted after the
network fetch failed, whether it crashed on an uncaught exception, which
later stages ran, and the final state. -/
structure PipelineResult where
  abortedNoNetwork : Bool
  crashed : Bool
  districtsAttempted : Bool
  districtsOk : Bool
  reportPrinted : Bool
  mapProduced : Bool
  st : AnalyzerState
  fs : FS

/-- `run_complete_analysis`: network fetch (abort on failure), district
fetch (result ignored), report, interactive map. -/
def run_complete_analysis (env : Env) (st : AnalyzerState) (fs : FS)
    (force_download force_analysis : Bool) : PipelineResult :=
  let d := download_road_network env st fs force_download
  if ¬ d.ok then
    { abortedNoNetwork := true, crashed := false, districtsAttempted := false,
      districtsOk := false, reportPrinted := false, mapProduced := false,
      st := d.st, fs := d.fs }
  else
    let dd := download_districts env d.st d.fs force_download
    let rep := generate_report env dd.st dd.fs force_analysis
    match rep.outcome with
    | .raised =>
        { abortedNoNetwork := false, crashed := true, districtsAttempted := true,
          districtsOk := dd.ok, reportPrinted := false, mapProduced := false,
          st := dd.st, fs := rep.fs }
    | .noStats =>
        let m := create_interactive_map env dd.st
        { abortedNoNetwork := false, crashed := false, districtsAttempted := true,
          districtsOk := dd.ok, reportPrinted := false, mapProduced := m.produced,
          st := dd.st, fs := rep.fs }
    | .printed _ =>
        let m := create_interactive_map env dd.st
        { abortedNoNetwork := false, crashed := false, districtsAttempted := true,
          districtsOk := dd.ok, reportPrinted := true, mapProduced := m.produced,
          st := dd.st, fs := rep.fs }

/-- The `default` entry of the style dict. -/
def defaultStyle : RoadStyle := { color := "#808080", weight := 1, opacity := 3/10 }

/-- The six classifications with a dedicated style entry. -/
def recognizedTags : List String :=
  ["motorway", "trunk", "primary", "secondary", "tertiary", "residential"]

/-- The stats mapping `analyze_connectivity` builds before the centrality
block runs (nonempty graph): the four counts/flags plus the timestamp,
without either centrality key. -/
def baseStatsOf (env : Env) (g : RoadGraph) : Stats :=
  { total_nodes := g.nodes.length
    total_edges := g.edges.length
    is_connected := nx_number_connected_components (to_undirected g) == 1
    number_of_components := nx_number_connected_components (to_undirected g)
    analysis_date := some env.now
    avg_degree_centrality := none
    avg_betweenness_centrality := none }

/-! Concrete sample inputs used by witnesses and counterexamples. -/

/-- The empty filesystem. -/
def emptyFS : FS := fun _ => none

/-- A small connected two-node road graph. -/
def sampleGraph : RoadGraph :=
  { nodes := [1, 2], edges := [{ src := 1, dst := 2, highway := none }] }

/-- A graph with two disjoint components. -/
def twoCompGraph : RoadGraph :=
  { nodes := [1, 2, 3, 4],
    edges := [{ src := 1, dst := 2, highway := none },
              { src := 3, dst := 4, highway := none }] }

/-- A graph with 5001 nodes (above the subsampling threshold). -/
def bigGraph : RoadGraph := { nodes := List.range 5001, edges := [] }

/-- A sample districts payload. -/
def sampleDistricts : Districts := { id := 0 }

/-- A sample stats mapping as it could sit in the stats cache. -/
def cachedStats : Stats :=
  { total_nodes := 7, total_edges := 9, is_connected := true,
    number_of_components := 1, analysis_date := some "2023-12-31 00:00:00",
    avg_degree_centrality := some 1, avg_betweenness_centrality := none }

/-- An environment in which every collaborator succeeds. -/
def baseEnv : Env :=
  { providerGraph := some sampleGraph
    providerDistricts := some sampleDistricts
    geocode := fun _ => some (0, 0)
    degreeCentrality := fun _ => some [1]
    betweennessCentrality := fun _ => some [1]
    now := "2024-01-01 00:00:00"
    saveGraphOk := true
    saveDistrictsOk := true
    saveStatsOk := true }

/-- Environment in which every cache write fails. -/
def envNoSave : Env :=
  { baseEnv with saveGraphOk := false, saveDistrictsOk := false, saveStatsOk := false }

/-- Environment in which the road-network provider raises. -/
def envNoNetwork : Env := { baseEnv with providerGraph := none }

/-- Environment in which the district fetch, every geocoding call and the
betweenness-centrality computation all fail. -/
def envDegraded : Env :=
  { baseEnv with
    providerDistricts := none
    geocode := fun _ => none
    betweennessCentrality := fun _ => none }

/-- Environment in which the betweenness-centrality computation raises. -/
def envCentFail : Env := { baseEnv with betweennessCentrality := fun _ => none }

/-- Object state holding the sample graph. -/
def stWithGraph : AnalyzerState :=
  { road_graph := some sampleGraph, districts_gdf := none }

/-- Object state holding the two-component graph. -/
def stTwoComp : AnalyzerState :=
  { road_graph := some twoCompGraph, districts_gdf := none }

/-- Object state holding the 5001-node graph. -/
def stBig : AnalyzerState :=
  { road_graph := some bigGraph, districts_gdf := none }

/-- Filesystem with a decodable cache file for each of the three
artifacts. -/
def fsAllCached : FS :=
  ((emptyFS.write graph_cache_file (.graphBlob sampleGraph)).write
      districts_cache_file (.districtsBlob sampleDistricts)).write
    stats_cache_file (.statsBlob cachedStats)

/-- Filesystem on which all three cache files exist but none decodes. -/
def fsAllCorrupt : FS :=
  ((emptyFS.write graph_cache_file .corrupt).write
      districts_cache_file .corrupt).write
    stats_cache_file .corrupt

/-- On a graph with at least one node, `nx.is_connected` of the undirected
projection returns the flag `component count == 1` instead of raising. -/
theorem nx_is_connected_eq (g : RoadGraph) (hne : g.nodes ≠ []) :
    nx_is_connected (to_undirected g)
      = some (nx_number_connected_components (to_undirected g) == 1) := by
  simp [nx_is_connected, to_undirected, List.isEmpty_iff, hne]

/-- On a nonempty graph the fresh computation returns a stats mapping whose
flag and component fields come from the undirected projection. -/
theorem computeStats_ok (env : Env) (g : RoadGraph) (fs : FS)
    (hne : g.nodes ≠ []) :
    ∃ s, (computeStats env g fs).outcome = .ok s ∧
      s.is_connected = (nx_number_connected_components (to_undirected g) == 1) ∧
      s.number_of_components = nx_number_connected_components (to_undirected g) ∧
      s.total_nodes = g.nodes.length ∧ s.total_edges = g.edges.length ∧
      s.analysis_date = some env.now := by
  simp only [computeStats]
  rw [nx_is_connected_eq g hne]
  cases hdeg : env.degreeCentrality (to_undirected g) with
  | none => exact ⟨_, rfl, rfl, rfl, rfl, rfl, rfl⟩
  | some degs =>
      cases hbet : env.betweennessCentrality (betweennessInput (to_undirected g)) with
      | none => exact ⟨_, rfl, rfl, rfl, rfl, rfl, rfl⟩
      | some bets => exact ⟨_, rfl, rfl, rfl, rfl, rfl, rfl⟩

/-- On a nonempty graph whose centrality block fails the fresh computation
returns exactly the base mapping and saves it. -/
theorem computeStats_centrality_fail (env : Env) (g : RoadGraph) (fs : FS)
    (hne : g.nodes ≠ [])
    (hfail : env.degreeCentrality (to_undirected g) = none ∨
      env.betweennessCentrality (betweennessInput (to_undirected g)) = none) :
    (computeStats env g fs).outcome = .ok (baseStatsOf env g) ∧
    (computeStats env g fs).fs = save_stats_to_cache env (baseStatsOf env g) fs := by
  simp only [computeStats]
  rw [nx_is_connected_eq g hne]
  cases hdeg : env.degreeCentrality (to_undirected g) with
  | none => exact ⟨rfl, rfl⟩
  | some degs =>
      cases hbet : env.betweennessCentrality (betweennessInput (to_undirected g)) with
      | none => exact ⟨rfl, rfl⟩
      | some bets =>
          rcases hfail with h | h
          · exact absurd hdeg (by simp [h])
          · exact absurd hbet (by simp [h])

/-- On a nonempty graph whose degree-centrality call succeeds, the fresh
computation invokes betweenness centrality on `betweennessInput`. -/
theorem computeStats_betweenness_called (env : Env) (g : RoadGraph) (fs : FS)
    (hne : g.nodes ≠ [])
    (hdeg : (env.degreeCentrality (to_undirected g)).isSome) :
    (computeStats env g fs).betweennessCalledOn
      = some (betweennessInput (to_undirected g)) := by
  simp only [computeStats]
  rw [nx_is_connected_eq g hne]
  cases hd : env.degreeCentrality (to_undirected g) with
  | none => rw [hd] at hdeg; exact absurd hdeg (by simp)
  | some degs =>
      cases hbet : env.betweennessCentrality (betweennessInput (to_undirected g)) with
      | none => rfl
      | some bets => rfl

/-- With a graph in memory and no usable cache entry, `analyze_connectivity`
runs the fresh computation. -/
theorem analyze_computes (env : Env) (st : AnalyzerState) (fs : FS)
    (force : Bool) (g : RoadGraph) (hg : st.road_graph = some g)
    (hmiss : force = true ∨ load_cached_stats fs = none) :
    (analyze_connectivity env st fs force).outcome = (computeStats env g fs).outcome ∧
    (analyze_connectivity env st fs force).fs = (computeStats env g fs).fs ∧
    (analyze_connectivity env st fs force).betweennessCalledOn
      = (computeStats env g fs).betweennessCalledOn := by
  have hfall : (if force then none else load_cached_stats fs) = (none : Option Stats) := by
    rcases hmiss with h | h <;> simp [h]
  simp [analyze_connectivity, hg, hfall]

/-- A decodable stats cache entry is returned as is. -/
theorem analyze_cache_hit (env : Env) (st : AnalyzerState) (fs : FS)
    (g : RoadGraph) (s : Stats) (hg : st.road_graph = some g)
    (h : load_cached_stats fs = some s) :
    analyze_connectivity env st fs false
      = { outcome := .ok s, fs := fs, cacheLoadCalled := true,
          betweennessCalledOn := none } := by
  simp [analyze_connectivity, hg, h]

/-- Claim C1: for every artifact producer (road network, districts,
connectivity stats) called with `forceRefresh = false` while its cache file
exists, a successfully decoding payload is returned as the artifact without
invoking the external provider, and a payload that fails to decode is
treated identically to a cache miss: the producer behaves exactly as on a
forced refresh (falls through to recomputation, no fatal error).  The stats
producer is taken at a state holding a graph (without one it fails before
the cache, see `no_graph_skips_stats_cache`). -/
theorem producer_cache_first (env : Env) (st : AnalyzerState) (fs : FS) :
    (∀ g, fs graph_cache_file = some (.graphBlob g) →
      download_road_network env st fs false
        = { ok := true, st := { st with road_graph := some g }, fs := fs,
            providerInvoked := false }) ∧
    (∀ b, fs graph_cache_file = some b → decodeGraph b = none →
      download_road_network env st fs false = download_road_network env st fs true) ∧
    (∀ d, fs districts_cache_file = some (.districtsBlob d) →
      download_districts env st fs false
        = { ok := true, st := { st with districts_gdf := some d }, fs := fs,
            providerInvoked := false }) ∧
    (∀ b, fs districts_cache_file = some b → decodeDistricts b = none →
      download_districts env st fs false = download_districts env st fs true) ∧
    (∀ g s, st.road_graph = some g → fs stats_cache_file = some (.statsBlob s) →
      analyze_connectivity env st fs false
        = { outcome := .ok s, fs := fs, cacheLoadCalled := true,
            betweennessCalledOn := none }) ∧
    (∀ g b, st.road_graph = some g → fs stats_cache_file = some b →
      decodeStats b = none →
      (analyze_connectivity env st fs false).outcome
          = (analyze_connectivity env st fs true).outcome ∧
      (analyze_connectivity env st fs false).fs
          = (analyze_connectivity env st fs true).fs ∧
      (analyze_connectivity env st fs false).betweennessCalledOn
          = (analyze_connectivity env st fs true).betweennessCalledOn) := by
  refine ⟨?_, ?_, ?_, ?_, ?_, ?_⟩
  · intro g h
    simp [download_road_network, load_cached_graph, h, decodeGraph]
  · intro b h hdec
    simp [download_road_network, load_cached_graph, h, hdec]
  · intro d h
    simp [download_districts, load_cached_districts, h, decodeDistricts]
  · intro b h hdec
    simp [download_districts, load_cached_districts, h, hdec]
  · intro g s hg h
    simp [analyze_connectivity, hg, load_cached_stats, h, decodeStats]
  · intro g b hg h hdec
    simp [analyze_connectivity, hg, load_cached_stats, h, hdec]

/-- Concrete instance of `producer_cache_first`: all three producers on a
fully cached filesystem and on a fully corrupt one. -/
theorem producer_cache_first_witness :
    download_road_network baseEnv stWithGraph fsAllCached false
      = { ok := true, st := { stWithGraph with road_graph := some sampleGraph },
          fs := fsAllCached, providerInvoked := false } ∧
    download_road_network baseEnv stWithGraph fsAllCorrupt false
      = download_road_network baseEnv stWithGraph fsAllCorrupt true ∧
    download_districts baseEnv stWithGraph fsAllCached false
      = { ok := true, st := { stWithGraph with districts_gdf := some sampleDistricts },
          fs := fsAllCached, providerInvoked := false } ∧
    download_districts baseEnv stWithGraph fsAllCorrupt false
      = download_districts baseEnv stWithGraph fsAllCorrupt true ∧
    analyze_connectivity baseEnv stWithGraph fsAllCached false
      = { outcome := .ok cachedStats, fs := fsAllCached, cacheLoadCalled := true,
          betweennessCalledOn := none } ∧
    (analyze_connectivity baseEnv stWithGraph fsAllCorrupt false).outcome
      = (analyze_connectivity baseEnv stWithGraph fsAllCorrupt true).outcome := by
  obtain ⟨h1, -, h3, -, h5, -⟩ := producer_cache_first baseEnv stWithGraph fsAllCached
  obtain ⟨-, g2, -, g4, -, g6⟩ := producer_cache_first baseEnv stWithGraph fsAllCorrupt
  exact ⟨h1 sampleGraph rfl, g2 .corrupt rfl rfl, h3 sampleDistricts rfl,
         g4 .corrupt rfl rfl, h5 sampleGraph cachedStats rfl rfl,
         (g6 sampleGraph .corrupt rfl rfl rfl).1⟩

/-- Claim C2: on every (nonempty) road graph the computed stats set
`is_connected` to true iff the undirected projection has exactly one
connected component and `number_of_components` to the component count of
that projection; in particular, on a graph with two disjoint components
`is_connected` is false and `number_of_components` is 2. -/
theorem connectivity_flag_components (env : Env) (st : AnalyzerState) (fs : FS)
    (force : Bool) (g : RoadGraph) (hg : st.road_graph = some g)
    (hne : g.nodes ≠ []) (hmiss : force = true ∨ load_cached_stats fs = none) :
    (∃ s, (analyze_connectivity env st fs force).outcome = .ok s ∧
      s.is_connected = (nx_number_connected_components (to_undirected g) == 1) ∧
      s.number_of_components = nx_number_connected_components (to_undirected g)) ∧
    nx_number_connected_components (to_undirected twoCompGraph) = 2 ∧
    (∃ s, (analyze_connectivity baseEnv stTwoComp emptyFS true).outcome = .ok s ∧
      s.is_connected = false ∧ s.number_of_components = 2 ∧
      s.total_nodes = 4 ∧ s.total_edges = 2) := by
  refine ⟨?_, by decide, ⟨_, rfl, by decide, by decide, by decide, by decide⟩⟩
  obtain ⟨s, hs, h1, h2, -⟩ := computeStats_ok env g fs hne
  obtain ⟨ho, -, -⟩ := analyze_computes env st fs force g hg hmiss
  exact ⟨s, ho.trans hs, h1, h2⟩

/-- Concrete instance of `connectivity_flag_components` on the
two-component graph with an empty cache. -/
theorem connectivity_flag_components_witness :
    ∃ s, (analyze_connectivity baseEnv stTwoComp emptyFS false).outcome = .ok s ∧
      s.is_connected = (nx_number_connected_components (to_undirected twoCompGraph) == 1) ∧
      s.number_of_components = nx_number_connected_components (to_undirected twoCompGraph) :=
  (connectivity_flag_components baseEnv stTwoComp emptyFS false twoCompGraph rfl
    (by decide) (Or.inr rfl)).1

/-- Claim C3: when the stats are freshly computed (and the degree-centrality
call succeeds so that the centrality block reaches betweenness), betweenness
centrality is invoked on the subgraph induced by the first 1000 nodes in
iteration order when the undirected projection has more than 5000 nodes, and
on the whole undirected graph otherwise. -/
theorem betweenness_subsample_boundary (env : Env) (st : AnalyzerState) (fs : FS)
    (force : Bool) (g : RoadGraph) (hg : st.road_graph = some g)
    (hne : g.nodes ≠ []) (hmiss : force = true ∨ load_cached_stats fs = none)
    (hdeg : (env.degreeCentrality (to_undirected g)).isSome) :
    (5000 < g.nodes.length →
      (analyze_connectivity env st fs force).betweennessCalledOn
        = some (subgraph (to_undirected g) ((to_undirected g).nodes.take 1000))) ∧
    (g.nodes.length ≤ 5000 →
      (analyze_connectivity env st fs force).betweennessCalledOn
        = some (to_undirected g)) := by
  obtain ⟨-, -, hb⟩ := analyze_computes env st fs force g hg hmiss
  have hc := computeStats_betweenness_called env g fs hne hdeg
  refine ⟨fun h => ?_, fun h => ?_⟩
  · rw [hb, hc]
    unfold betweennessInput
    rw [if_pos (by simpa [to_undirected] using h)]
  · rw [hb, hc]
    unfold betweennessInput
    rw [if_neg (by simpa [to_undirected] using not_lt.mpr h)]

/-- Concrete instance of `betweenness_subsample_boundary`: a 5001-node graph
triggers the 1000-node subsample, a 2-node graph does not. -/
theorem betweenness_subsample_boundary_witness :
    (analyze_connectivity baseEnv stBig emptyFS false).betweennessCalledOn
      = some (subgraph (to_undirected bigGraph) ((to_undirected bigGraph).nodes.take 1000)) ∧
    (analyze_connectivity baseEnv stWithGraph emptyFS false).betweennessCalledOn
      = some (to_undirected sampleGraph) := by
  constructor
  · exact (betweenness_subsample_boundary baseEnv stBig emptyFS false bigGraph rfl
      (by simp [bigGraph, List.range_eq_nil]) (Or.inr rfl) rfl).1
      (by simp [bigGraph, List.length_range])
  · exact (betweenness_subsample_boundary baseEnv stWithGraph emptyFS false sampleGraph rfl
      (by decide) (Or.inr rfl) rfl).2 (by decide)

/-- The stats mapping the fresh computation returns does not depend on
whether (or where) saving succeeds. -/
theorem computeStats_outcome_env_indep (env env2 : Env) (g : RoadGraph)
    (fs fs' : FS) (h1 : env2.now = env.now)
    (h2 : env2.degreeCentrality = env.degreeCentrality)
    (h3 : env2.betweennessCentrality = env.betweennessCentrality) :
    (computeStats env g fs).outcome = (computeStats env2 g fs').outcome := by
  simp only [computeStats, h1, h2, h3]
  cases hnx : nx_is_connected (to_undirected g) with
  | none => simp [hnx]
  | some conn =>
      cases hdeg : env.degreeCentrality (to_undirected g) with
      | none => simp [hnx, hdeg]
      | some degs =>
          cases hbet : env.betweennessCentrality (betweennessInput (to_undirected g)) with
          | none => simp [hnx, hdeg, hbet]
          | some bets => simp [hnx, hdeg, hbet]

/-- When saving the stats cache fails, the filesystem is unchanged. -/
theorem computeStats_fs_nosave (env : Env) (g : RoadGraph) (fs : FS)
    (hss : env.saveStatsOk = false) :
    (computeStats env g fs).fs = fs := by
  simp only [computeStats]
  cases hnx : nx_is_connected (to_undirected g) with
  | none => simp [hnx]
  | some conn =>
      cases hdeg : env.degreeCentrality (to_undirected g) with
      | none => simp [hnx, hdeg, save_stats_to_cache, hss]
      | some degs =>
          cases hbet : env.betweennessCentrality (betweennessInput (to_undirected g)) with
          | none => simp [hnx, hdeg, hbet, save_stats_to_cache, hss]
          | some bets => simp [hnx, hdeg, hbet, save_stats_to_cache, hss]

/-- Claim C4: a failure while saving a freshly produced artifact is
non-fatal for every producer: the producer still reports success and
returns the freshly produced in-memory artifact, that artifact is the same
one a successful save would have returned, and the filesystem is left as
the failed write left it. -/
theorem save_failure_nonfatal (env : Env) (st : AnalyzerState) (fs : FS)
    (hsg : env.saveGraphOk = false) (hsd : env.saveDistrictsOk = false)
    (hss : env.saveStatsOk = false) :
    (∀ g, env.providerGraph = some g →
      download_road_network env st fs true
        = { ok := true, st := { st with road_graph := some g }, fs := fs,
            providerInvoked := true }) ∧
    (∀ d, env.providerDistricts = some d →
      download_districts env st fs true
        = { ok := true, st := { st with districts_gdf := some d }, fs := fs,
            providerInvoked := true }) ∧
    (∀ g, st.road_graph = some g → g.nodes ≠ [] →
      (analyze_connectivity env st fs true).fs = fs ∧
      (∃ s, (analyze_connectivity env st fs true).outcome = .ok s) ∧
      (analyze_connectivity env st fs true).outcome
        = (analyze_connectivity { env with saveStatsOk := true } st fs true).outcome) := by
  refine ⟨?_, ?_, ?_⟩
  · intro g h
    simp [download_road_network, h, save_graph_to_cache, hsg]
  · intro d h
    simp [download_districts, h, save_districts_to_cache, hsd]
  · intro g hg hne
    obtain ⟨ho, hf, -⟩ := analyze_computes env st fs true g hg (Or.inl rfl)
    obtain ⟨ho2, -, -⟩ :=
      analyze_computes { env with saveStatsOk := true } st fs true g hg (Or.inl rfl)
    obtain ⟨s, hs, -⟩ := computeStats_ok env g fs hne
    refine ⟨hf.trans (computeStats_fs_nosave env g fs hss), ⟨s, ho.trans hs⟩, ?_⟩
    rw [ho, ho2]
    exact computeStats_outcome_env_indep env { env with saveStatsOk := true } g fs fs
      rfl rfl rfl

/-- Concrete instance of `save_failure_nonfatal`: all three producers with
every cache write failing. -/
theorem save_failure_nonfatal_witness :
    download_road_network envNoSave initState emptyFS true
      = { ok := true, st := { initState with road_graph := some sampleGraph },
          fs := emptyFS, providerInvoked := true } ∧
    download_districts envNoSave initState emptyFS true
      = { ok := true, st := { initState with districts_gdf := some sampleDistricts },
          fs := emptyFS, providerInvoked := true } ∧
    (analyze_connectivity envNoSave stWithGraph emptyFS true).fs = emptyFS ∧
    (∃ s, (analyze_connectivity envNoSave stWithGraph emptyFS true).outcome = .ok s) := by
  obtain ⟨h1, h2, -⟩ := save_failure_nonfatal envNoSave initState emptyFS rfl rfl rfl
  obtain ⟨-, -, g3⟩ := save_failure_nonfatal envNoSave stWithGraph emptyFS rfl rfl rfl
  obtain ⟨hfs, hex, -⟩ := g3 sampleGraph rfl (by decide)
  exact ⟨h1 sampleGraph rfl, h2 sampleDistricts rfl, hfs, hex⟩

/-- The district fetch never touches the in-memory road graph. -/
theorem download_districts_road_graph (env : Env) (st : AnalyzerState) (fs : FS)
    (f : Bool) : (download_districts env st fs f).st.road_graph = st.road_graph := by
  have hl : (load_cached_districts st fs).2.road_graph = st.road_graph := by
    unfold load_cached_districts
    cases hb : fs districts_cache_file with
    | none => rfl
    | some b => cases hd : decodeDistricts b with
      | none => simp [hd]
      | some d => simp [hd]
  unfold download_districts
  by_cases hc : ¬ f ∧ (load_cached_districts st fs).1
  · rw [if_pos hc]; exact hl
  · rw [if_neg hc]
    cases hp : env.providerDistricts <;> simp [hp]

/-- With a (nonempty) graph in memory, `analyze_connectivity` always
returns a stats mapping. -/
theorem analyze_ok_of_graph (env : Env) (st : AnalyzerState) (fs : FS)
    (force : Bool) (g : RoadGraph) (hg : st.road_graph = some g)
    (hne : g.nodes ≠ []) :
    ∃ s, (analyze_connectivity env st fs force).outcome = .ok s := by
  cases hc : (if force then none else load_cached_stats fs) with
  | some s => exact ⟨s, by simp [analyze_connectivity, hg, hc]⟩
  | none =>
      obtain ⟨s, hs, -⟩ := computeStats_ok env g fs hne
      have hmiss : force = true ∨ load_cached_stats fs = none := by
        cases force
        · exact Or.inr (by simpa using hc)
        · exact Or.inl rfl
      obtain ⟨ho, -, -⟩ := analyze_computes env st fs force g hg hmiss
      exact ⟨s, ho.trans hs⟩

/-- Claim C5: in `run_complete_analysis` only failure to obtain the primary
road network aborts the run (the function returns before the district
fetch, the report and the map); once a (nonempty) road network is obtained,
the run always reaches the district fetch, prints the report and produces
the map, whatever the district provider, the geocoder or the centrality
routines do. -/
theorem pipeline_abort_policy (env : Env) (st : AnalyzerState) (fs : FS)
    (fd fa : Bool) :
    ((download_road_network env st fs fd).ok = false →
      run_complete_analysis env st fs fd fa
        = { abortedNoNetwork := true, crashed := false, districtsAttempted := false,
            districtsOk := false, reportPrinted := false, mapProduced := false,
            st := (download_road_network env st fs fd).st,
            fs := (download_road_network env st fs fd).fs }) ∧
    (∀ g, (download_road_network env st fs fd).ok = true →
      (download_road_network env st fs fd).st.road_graph = some g → g.nodes ≠ [] →
      (run_complete_analysis env st fs fd fa).abortedNoNetwork = false ∧
      (run_complete_analysis env st fs fd fa).crashed = false ∧
      (run_complete_analysis env st fs fd fa).districtsAttempted = true ∧
      (run_complete_analysis env st fs fd fa).reportPrinted = true ∧
      (run_complete_analysis env st fs fd fa).mapProduced = true) := by
  constructor
  · intro h
    simp [run_complete_analysis, h]
  · intro g hok hgraph hne
    have hdd : (download_districts env (download_road_network env st fs fd).st
        (download_road_network env st fs fd).fs fd).st.road_graph = some g := by
      rw [download_districts_road_graph]; exact hgraph
    obtain ⟨s, hs⟩ := analyze_ok_of_graph env
      (download_districts env (download_road_network env st fs fd).st
        (download_road_network env st fs fd).fs fd).st
      (download_districts env (download_road_network env st fs fd).st
        (download_road_network env st fs fd).fs fd).fs fa g hdd hne
    simp [run_complete_analysis, hok, generate_report, hs, create_interactive_map, hdd]

/-- Concrete instance of `pipeline_abort_policy`: a run whose network fetch
fails aborts before everything else; a run in which the district provider,
every geocoding call and the betweenness computation fail still prints the
report and produces the map. -/
theorem pipeline_abort_policy_witness :
    run_complete_analysis envNoNetwork initState emptyFS false false
      = { abortedNoNetwork := true, crashed := false, districtsAttempted := false,
          districtsOk := false, reportPrinted := false, mapProduced := false,
          st := initState, fs := emptyFS } ∧
    (run_complete_analysis envDegraded initState emptyFS false false).abortedNoNetwork
      = false ∧
    (run_complete_analysis envDegraded initState emptyFS false false).reportPrinted
      = true ∧
    (run_complete_analysis envDegraded initState emptyFS false false).mapProduced
      = true := by
  obtain ⟨-, -, -, hrep, hmap⟩ :=
    (pipeline_abort_policy envDegraded initState emptyFS false false).2 sampleGraph
      rfl rfl (by decide)
  obtain ⟨hab, -, -, -, -⟩ :=
    (pipeline_abort_policy envDegraded initState emptyFS false false).2 sampleGraph
      rfl rfl (by decide)
  exact ⟨(pipeline_abort_policy envNoNetwork initState emptyFS false false).1 rfl,
         hab, hrep, hmap⟩

/-- Claim C6, counterexample: `generate_report` is not a side-effect-free
function of a stats mapping - called on a state holding a graph and an
empty cache, it writes the stats cache file (it runs
`analyze_connectivity`, which persists the freshly computed stats), so its
filesystem effect is visible. -/
theorem report_not_pure_counterexample :
    (generate_report baseEnv stWithGraph emptyFS false).fs stats_cache_file
      ≠ emptyFS stats_cache_file ∧
    ¬ (∀ (env : Env) (st : AnalyzerState) (fs : FS) (force : Bool),
        (generate_report env st fs force).fs = fs) := by
  have h : (generate_report baseEnv stWithGraph emptyFS false).fs stats_cache_file
      ≠ emptyFS stats_cache_file := by decide
  exact ⟨h, fun hall => h (by rw [hall])⟩

/-- Claim C6, amended: the report text for a given stats mapping is a pure
function of that mapping with the fixed field order (node count, edge
count, connectivity rendered Yes/No, component count, optional centrality
averages, optional timestamp); `generate_report` itself, however, obtains
the stats by running the stats producer (inheriting its cache effects) and
prints the block rather than returning it. -/
theorem report_fixed_format (env : Env) (st : AnalyzerState) (fs : FS)
    (force : Bool) (s : Stats)
    (h : (analyze_connectivity env st fs force).outcome = .ok s) :
    (generate_report env st fs force).outcome = .printed (formatReport s) ∧
    (generate_report env st fs force).fs = (analyze_connectivity env st fs force).fs ∧
    formatReport s
      = ["", reportRule, "BANGLADESH ROAD CONNECTIVITY REPORT", reportRule,
         "Total Road Nodes: " ++ toString s.total_nodes,
         "Total Road Segments: " ++ toString s.total_edges,
         "Network Connected: " ++ (if s.is_connected then "Yes" else "No"),
         "Number of Components: " ++ toString s.number_of_components]
        ++ (s.avg_degree_centrality.elim []
              fun q => ["Average Degree Centrality: " ++ ratStr q])
        ++ (s.avg_betweenness_centrality.elim []
              fun q => ["Average Betweenness Centrality: " ++ ratStr q])
        ++ (s.analysis_date.elim [] fun d => ["Analysis Date: " ++ d])
        ++ [reportRule] := by
  refine ⟨by simp [generate_report, h], by simp [generate_report, h], ?_⟩
  obtain ⟨tn, te, ic, nc, ad, adc, abc⟩ := s
  cases adc <;> cases abc <;> cases ad <;> rfl

/-- Concrete instance of `report_fixed_format`: a cached stats mapping is
rendered as its fixed-order block. -/
theorem report_fixed_format_witness :
    (generate_report baseEnv stWithGraph fsAllCached false).outcome
      = .printed (formatReport cachedStats) :=
  (report_fixed_format baseEnv stWithGraph fsAllCached false cachedStats rfl).1

/-- Claim C7: the style lookup returns the fixed (colour, weight, opacity)
tuple for each of the six recognised classifications, the default tuple for
any unrecognised or absent classification, and for a list classification it
uses only the first element (an empty list falls back to the default). -/
theorem road_style_lookup :
    (get_road_style (.str "motorway")
        = { color := "#FF0000", weight := 4, opacity := 8/10 } ∧
     get_road_style (.str "trunk")
        = { color := "#FF4500", weight := 3, opacity := 8/10 } ∧
     get_road_style (.str "primary")
        = { color := "#FFA500", weight := 5/2, opacity := 7/10 } ∧
     get_road_style (.str "secondary")
        = { color := "#FFFF00", weight := 2, opacity := 6/10 } ∧
     get_road_style (.str "tertiary")
        = { color := "#90EE90", weight := 3/2, opacity := 5/10 } ∧
     get_road_style (.str "residential")
        = { color := "#87CEEB", weight := 1, opacity := 4/10 }) ∧
    (∀ s, s ∉ recognizedTags → get_road_style (.str s) = defaultStyle) ∧
    (∀ s l, get_road_style (.list (s :: l)) = get_road_style (.str s)) ∧
    get_road_style (.list []) = defaultStyle ∧
    (∀ e, e.highway = none → styleForEdge e = defaultStyle) ∧
    (∀ e l, e.highway = some (.tags l) → styleForEdge e = get_road_style (.list l)) := by
  refine ⟨⟨rfl, rfl, rfl, rfl, rfl, rfl⟩, ?_, fun s l => rfl, rfl, ?_, ?_⟩
  · intro s hs
    simp only [recognizedTags, List.mem_cons, List.not_mem_nil, or_false] at hs
    push_neg at hs
    obtain ⟨h1, h2, h3, h4, h5, h6⟩ := hs
    simp [get_road_style, styleLookup, h1, h2, h3, h4, h5, h6, defaultStyle]
  · intro e h
    simp [styleForEdge, edgeTagValue, h, get_road_style, styleLookup, defaultStyle]
  · intro e l h
    simp [styleForEdge, edgeTagValue, h]

/-- Concrete instance of `road_style_lookup`: an unrecognised tag, a
multi-tag list, an edge with no tag, and an edge with a list tag. -/
theorem road_style_lookup_witness :
    get_road_style (.str "footway") = defaultStyle ∧
    get_road_style (.list ["trunk", "primary"]) = get_road_style (.str "trunk") ∧
    styleForEdge { src := 0, dst := 1, highway := none } = defaultStyle ∧
    styleForEdge { src := 0, dst := 1, highway := some (.tags ["motorway"]) }
      = get_road_style (.list ["motorway"]) := by
  obtain ⟨-, h2, h3, -, h5, h6⟩ := road_style_lookup
  exact ⟨h2 "footway" (by decide), h3 "trunk" ["primary"], h5 _ rfl, h6 _ ["motorway"] rfl⟩

/-- Pointwise effect of one `clear_cache` loop iteration. -/
theorem removeIfExists_apply (fs : FS) (q p : String) :
    removeIfExists fs q p = if p = q then none else fs p := by
  by_cases h : (fs q).isSome
  · simp [removeIfExists, h, FS.remove]
  · rw [Option.not_isSome_iff_eq_none] at h
    simp only [removeIfExists, h, Option.isSome_none, Bool.false_eq_true, if_false]
    by_cases hq : p = q
    · subst hq; simp [h]
    · simp [hq]

/-- Claim C8: on every filesystem, `clear_cache` empties exactly the three
cache paths (existing files are removed, absent ones stay absent, with no
failure raised) and leaves every other path untouched. -/
theorem clear_cache_exact (fs : FS) (p : String) :
    clear_cache fs p
      = if p = graph_cache_file ∨ p = districts_cache_file ∨ p = stats_cache_file
        then none else fs p := by
  simp only [clear_cache, List.foldl, removeIfExists_apply]
  split_ifs <;> simp_all

/-- Claim C9: with no road network in memory, `analyze_connectivity`
returns `None` without consulting the stats cache at all - whatever the
filesystem holds (in particular a valid cached stats file) and with
`force_analysis = false` - because the graph precondition is checked before
the cache lookup. -/
theorem no_graph_skips_stats_cache (env : Env) (fs : FS) (d : Option Districts) :
    analyze_connectivity env { road_graph := none, districts_gdf := d } fs false
      = { outcome := .noGraph, fs := fs, cacheLoadCalled := false,
          betweennessCalledOn := none } := rfl

/-- Claim C10: when the centrality block fails during a fresh analysis of a
(nonempty) graph, the base stats mapping - node count, edge count,
connectivity flag, component count and timestamp, with neither centrality
key - is saved to the stats cache (writes succeeding) and returned, and
every subsequent call with `force_analysis = false` (from a state holding
some graph) returns that same mapping verbatim from the cache. -/
theorem centrality_failure_cached (env : Env) (st : AnalyzerState) (fs : FS)
    (force : Bool) (g : RoadGraph) (hg : st.road_graph = some g)
    (hne : g.nodes ≠ []) (hmiss : force = true ∨ load_cached_stats fs = none)
    (hfail : env.degreeCentrality (to_undirected g) = none ∨
      env.betweennessCentrality (betweennessInput (to_undirected g)) = none)
    (hsave : env.saveStatsOk = true) :
    (analyze_connectivity env st fs force).outcome = .ok (baseStatsOf env g) ∧
    (baseStatsOf env g).avg_degree_centrality = none ∧
    (baseStatsOf env g).avg_betweenness_centrality = none ∧
    (baseStatsOf env g).analysis_date = some env.now ∧
    (analyze_connectivity env st fs force).fs stats_cache_file
      = some (.statsBlob (baseStatsOf env g)) ∧
    (∀ (env2 : Env) (st2 : AnalyzerState) (g2 : RoadGraph),
      st2.road_graph = some g2 →
      (analyze_connectivity env2 st2 (analyze_connectivity env st fs force).fs
          false).outcome
        = .ok (baseStatsOf env g)) := by
  obtain ⟨ho, hf, -⟩ := analyze_computes env st fs force g hg hmiss
  obtain ⟨hco, hcf⟩ := computeStats_centrality_fail env g fs hne hfail
  have hfs : (analyze_connectivity env st fs force).fs stats_cache_file
      = some (.statsBlob (baseStatsOf env g)) := by
    rw [hf, hcf]
    simp [save_stats_to_cache, hsave, FS.write]
  refine ⟨ho.trans hco, rfl, rfl, rfl, hfs, ?_⟩
  intro env2 st2 g2 hg2
  have hload : load_cached_stats (analyze_connectivity env st fs force).fs
      = some (baseStatsOf env g) := by
    simp [load_cached_stats, hfs, decodeStats]
  rw [analyze_cache_hit env2 st2 ((analyze_connectivity env st fs force).fs) g2
    (baseStatsOf env g) hg2 hload]

/-- Concrete instance of `centrality_failure_cached`: the betweenness
computation fails on the sample graph; the base mapping is returned, and a
second call (here under an environment whose centrality calls would
succeed) returns it verbatim from the cache. -/
theorem centrality_failure_cached_witness :
    (analyze_connectivity envCentFail stWithGraph emptyFS false).outcome
      = .ok (baseStatsOf envCentFail sampleGraph) ∧
    (analyze_connectivity baseEnv stWithGraph
        (analyze_connectivity envCentFail stWithGraph emptyFS false).fs false).outcome
      = .ok (baseStatsOf envCentFail sampleGraph) := by
  obtain ⟨h1, -, -, -, -, h6⟩ :=
    centrality_failure_cached envCentFail stWithGraph emptyFS false sampleGraph rfl
      (by decide) (Or.inr rfl) (Or.inr rfl) rfl
  exact ⟨h1, h6 baseEnv stWithGraph sampleGraph rfl⟩

end BDRoad
